import Mathlib

/-!
Shallow embedding of the web-bot-auth validation core of this repository:
`src/webBotAuth/validation/lib/directory.ts` (directory resolver) and
`src/webBotAuth/validation/lib/signature.ts` (signature verifier), over the
data model of `src/webBotAuth/validation/lib/types.ts`.

JavaScript values flowing out of `response.json()` are modelled by `JsonVal`;
JavaScript truthiness, `typeof`, strict equality against a string literal and
template-literal stringification are modelled explicitly.  Effects (network
fetch outcome, `process.env.NODE_ENV`, the web-bot-auth library verdict,
`Date.now()`) are passed in as explicit parameters; the module-level
`directoryCache` is threaded as explicit state.  Each embedded function also
reports how many network fetches it issued, so claims about fetch counts are
statable.
-/

/-- A parsed JSON value (the result of `response.json()`). -/
inductive JsonVal where
  | null
  | bool (b : Bool)
  | num (n : Int)
  | str (s : String)
  | arr (xs : List JsonVal)
  | obj (fields : List (String × JsonVal))
deriving Repr

/-- JavaScript truthiness test (`!v` is `jsFalsy v`). -/
def jsFalsy : JsonVal → Bool
  | .null => true
  | .bool b => !b
  | .num n => n == 0
  | .str s => s == ""
  | .arr _ => false
  | .obj _ => false

/-- JavaScript `typeof` (note `typeof null = "object"` and arrays are objects). -/
def jsTypeof : JsonVal → String
  | .null => "object"
  | .bool _ => "boolean"
  | .num _ => "number"
  | .str _ => "string"
  | .arr _ => "object"
  | .obj _ => "object"

/-- Property access `v.name`: `none` models JavaScript `undefined`. -/
def getField (v : JsonVal) (name : String) : Option JsonVal :=
  match v with
  | .obj fields => (fields.find? (fun f => f.1 == name)).map (fun f => f.2)
  | _ => none

/-- JavaScript strict equality `v === s` between a possibly-absent property
value and a string literal. -/
def isStr? : Option JsonVal → String → Bool
  | some (.str t), s => t == s
  | _, _ => false

/-- JavaScript `String(v)`, as used by template literals. -/
def jsDisplay (v : JsonVal) : String :=
  match v with
  | .null => "null"
  | .bool b => cond b "true" "false"
  | .num n => toString n
  | .str s => s
  | .arr xs => goList xs
  | .obj _ => "[object Object]"
where
  goList : List JsonVal → String
  | [] => ""
  | [x] => jsDisplay x
  | x :: xs => jsDisplay x ++ "," ++ goList xs

/-- Template-literal interpolation of an optional string (`undefined` prints
as the string "undefined"). -/
def optStrDisplay : Option String → String
  | none => "undefined"
  | some s => s

/-- The `{ isValid, error? }` records returned by the two structure
validators in `directory.ts`. -/
structure JsCheck where
  isValid : Bool
  error : Option String := none
deriving Repr, DecidableEq

/-- `validateJWK` of `directory.ts`: checks a single key object for the
Ed25519 JWK invariants, returning the first violated constraint. -/
def validateJWK (key : JsonVal) : JsCheck :=
  if jsFalsy key || jsTypeof key != "object" then
    { isValid := false, error := some "Key is not an object" }
  else if !(isStr? (getField key "kty") "OKP") then
    { isValid := false, error := some "Key type must be \"OKP\" for Ed25519" }
  else if !(isStr? (getField key "crv") "Ed25519") then
    { isValid := false, error := some "Curve must be \"Ed25519\"" }
  else if jsMissingStrField (getField key "x") then
    { isValid := false, error := some "Missing or invalid \"x\" coordinate" }
  else if jsMissingStrField (getField key "kid") then
    { isValid := false, error := some "Missing or invalid \"kid\" (Key ID)" }
  else if jsBadOptionalNum (getField key "nbf") then
    { isValid := false, error := some "Invalid \"nbf\" (Not Before) timestamp" }
  else if jsBadOptionalNum (getField key "exp") then
    { isValid := false, error := some "Invalid \"exp\" (Expiration) timestamp" }
  else { isValid := true }
where
  /-- `!key.x || typeof key.x !== "string"`. -/
  jsMissingStrField : Option JsonVal → Bool
  | none => true
  | some w => jsFalsy w || jsTypeof w != "string"
  /-- `key.nbf !== undefined && typeof key.nbf !== "number"`. -/
  jsBadOptionalNum : Option JsonVal → Bool
  | none => false
  | some w => jsTypeof w != "number"

/-- The index-carrying loop over `data.keys` inside
`validateDirectoryStructure`: first failing key wins, reported with its
index. -/
def validateKeysFrom : Nat → List JsonVal → JsCheck
  | _, [] => { isValid := true }
  | i, k :: rest =>
    let keyValidation := validateJWK k
    if keyValidation.isValid then validateKeysFrom (i + 1) rest
    else { isValid := false,
           error := some ("Invalid key at index " ++ toString i ++ ": "
             ++ optStrDisplay keyValidation.error) }

/-- `validateDirectoryStructure` of `directory.ts`. -/
def validateDirectoryStructure (data : JsonVal) : JsCheck :=
  if jsFalsy data || jsTypeof data != "object" then
    { isValid := false, error := some "Directory data is not an object" }
  else
    match getField data "keys" with
    | some (.arr keys) =>
      if keys.length == 0 then
        { isValid := false, error := some "Directory keys array cannot be empty" }
      else validateKeysFrom 0 keys
    | _ => { isValid := false, error := some "Directory must contain a \"keys\" array" }

/-- The keys array of a (validated) directory value. -/
def dirKeys (d : JsonVal) : List JsonVal :=
  match getField d "keys" with
  | some (.arr ks) => ks
  | _ => []

/-- `findKeyById` of `directory.ts`: `directory.keys.find(key => key.kid === kid)`.
Matches purely by key identifier; first match wins. -/
def findKeyById (directory : JsonVal) (kid : String) : Option JsonVal :=
  (dirKeys directory).find? (fun key => isStr? (getField key "kid") kid)

/-- The module-level `directoryCache`: url ↦ (data, timestamp), modelled as an
association list with `Map.get`/`Map.set` semantics. -/
abbrev Cache : Type := List (String × JsonVal × Int)

/-- `directoryCache.get(url)`. -/
def cacheGet : Cache → String → Option (JsonVal × Int)
  | [], _ => none
  | (u, d, ts) :: rest, url => if u == url then some (d, ts) else cacheGet rest url

/-- `directoryCache.set(url, { data, timestamp })`: overwrite in place or append. -/
def cacheSet : Cache → String → JsonVal → Int → Cache
  | [], url, d, ts => [(url, d, ts)]
  | (u, d0, ts0) :: rest, url, d, ts =>
    if u == url then (url, d, ts) :: rest else (u, d0, ts0) :: cacheSet rest url d ts

/-- Outcome of the single `fetch(url, ...)` call a resolver run may issue:
either the fetch itself rejects, or an HTTP response arrives whose
`response.json()` either parses or throws. -/
inductive NetResult where
  | netThrow (msg : String)
  | response (ok : Bool) (status : Nat) (statusText : String) (body : Except String JsonVal)

/-- `DirectoryResult` of `types.ts`. -/
structure DirectoryResult where
  success : Bool
  directory : Option JsonVal := none
  error : Option String := none
  url : String
  timestamp : Int
deriving Repr

/-- `fetchSignaturesDirectory` of `directory.ts`.  Returns the structured
result, the cache after the call, and the number of network fetches issued
(0 on a cache hit, 1 otherwise).  The `try`/`catch` of the source is the
`netThrow` / `Except.error` branches: every failure mode becomes a
`success := false` result. -/
def fetchSignaturesDirectory (net : NetResult) (cache : Cache) (url : String)
    (cacheTimeout : Int) (now : Int) : DirectoryResult × Cache × Nat :=
  match cacheGet cache url with
  | some (d, ts) =>
    if now - ts < cacheTimeout then
      ({ success := true, directory := some d, url := url, timestamp := ts }, cache, 0)
    else fetchFresh net cache url now
  | none => fetchFresh net cache url now
where
  /-- The post-cache-miss part of the function body. -/
  fetchFresh (net : NetResult) (cache : Cache) (url : String) (now : Int) :
      DirectoryResult × Cache × Nat :=
    match net with
    | .netThrow msg =>
      ({ success := false, error := some ("Error fetching directory: " ++ msg),
         url := url, timestamp := now }, cache, 1)
    | .response ok status statusText body =>
      if !ok then
        ({ success := false,
           error := some ("Failed to fetch directory: " ++ toString status ++ " " ++ statusText),
           url := url, timestamp := now }, cache, 1)
      else
        match body with
        | .error msg =>
          ({ success := false, error := some ("Error fetching directory: " ++ msg),
             url := url, timestamp := now }, cache, 1)
        | .ok data =>
          let validationResult := validateDirectoryStructure data
          if !validationResult.isValid then
            ({ success := false,
               error := some ("Invalid directory structure: "
                 ++ optStrDisplay validationResult.error),
               url := url, timestamp := now }, cache, 1)
          else
            ({ success := true, directory := some data, url := url, timestamp := now },
             cacheSet cache url data now, 1)

/-- The inbound HTTP request: the verifier reads only the header map
(case-insensitive lookup), plus `url` and `method` used by the debug
variant. -/
structure Request where
  url : String := ""
  method : String := "GET"
  headers : List (String × String)

/-- ASCII lower-casing of a header name, character by character. -/
def strLower (s : String) : String := String.mk (s.data.map Char.toLower)

/-- `request.headers.get(name)` (case-insensitive; JavaScript returns `null`
for an absent header, modelled as `none`). -/
def headerGet (request : Request) (name : String) : Option String :=
  (request.headers.find? (fun p => strLower p.1 == strLower name)).map (fun p => p.2)

/-- `SignatureComponents` of `types.ts`. -/
structure SignatureComponents where
  signature : String
  signatureInput : String
  keyId : Option String := none
  algorithm : Option String := none
  created : Option String := none
  expires : Option String := none
  nonce : Option String := none
  tag : Option String := none
deriving Repr, DecidableEq

/-- Leftmost match of a regex of shape `name="([^"]+)"`:
scan for the literal prefix `pre` (e.g. `keyid="`), capture a non-empty run
of non-quote characters, and require the closing quote. -/
def scanQuotedParam (pre : List Char) : List Char → Option String
  | [] => none
  | s@(_ :: rest) =>
    if pre.isPrefixOf s then
      let after := s.drop pre.length
      let cap := after.takeWhile (fun c => c ≠ '"')
      if cap.length > 0 && after.length > cap.length then some (String.mk cap)
      else scanQuotedParam pre rest
    else scanQuotedParam pre rest

/-- Leftmost match of a regex of shape `name=(\d+)`: scan for the literal
prefix `pre` (e.g. `created=`), capture a non-empty digit run. -/
def scanNumParam (pre : List Char) : List Char → Option String
  | [] => none
  | s@(_ :: rest) =>
    if pre.isPrefixOf s then
      let after := s.drop pre.length
      let cap := after.takeWhile Char.isDigit
      if cap.length > 0 then some (String.mk cap)
      else scanNumParam pre rest
    else scanNumParam pre rest

/-- `extractSignatureComponents` of `signature.ts`: requires both the
`signature` and `signature-input` headers (a missing or empty header is
falsy), then parses the optional parameters out of `signature-input` with
the permissive regexes of the source. -/
def extractSignatureComponents (request : Request) : Option SignatureComponents :=
  let signature := headerGet request "signature"
  let signatureInput := headerGet request "signature-input"
  match signature, signatureInput with
  | some sg, some si =>
    if sg == "" || si == "" then none
    else some
      { signature := sg
        signatureInput := si
        keyId := scanQuotedParam ("keyid=\"".toList) si.toList
        algorithm := scanQuotedParam ("alg=\"".toList) si.toList
        created := scanNumParam ("created=".toList) si.toList
        expires := scanNumParam ("expires=".toList) si.toList
        nonce := scanQuotedParam ("nonce=\"".toList) si.toList
        tag := scanQuotedParam ("tag=\"".toList) si.toList }
  | _, _ => none

/-- What the real web-bot-auth library path (`verifierFromJWK` composed with
`verify`) would do for the given request and key: resolve, or throw with a
message.  This is the only free parameter of step 4; the `NODE_ENV` gate of
`mockWebBotAuth` sits in front of it. -/
inductive LibOutcome where
  | ok
  | err (msg : String)

/-- `verifySignatureWithWebBotAuth` of `signature.ts`, composed with the
`mockWebBotAuth` wrapper it calls: when `process.env.NODE_ENV === "test"`
the wrapper throws (`Mock verification failure` / the always-throwing mock
verifier), the surrounding `try`/`catch` turns every throw into `false`, and
otherwise the library outcome decides the boolean. -/
def verifySignatureWithWebBotAuth (nodeEnv : String) (lib : LibOutcome)
    (_request : Request) (_key _directory : JsonVal) : Bool :=
  if nodeEnv == "test" then false
  else match lib with
    | .ok => true
    | .err _ => false

/-- The `details` milestone record of `ValidationResult`. -/
structure VDetails where
  signatureFound : Bool
  directoryFetched : Bool
  keyMatched : Bool
  signatureValid : Bool
deriving Repr, DecidableEq

/-- The `metadata` record of a successful `ValidationResult`. -/
structure VMetadata where
  kid : Option String
  purpose : Option JsonVal
  timestamp : String
deriving Repr

/-- `ValidationResult` of `types.ts` (this function always supplies
`details`, so it is not optional here). -/
structure ValidationResult where
  isValid : Bool
  error : Option String := none
  details : VDetails
  metadata : Option VMetadata := none
deriving Repr

/-- `ValidationConfig` of `types.ts`. -/
structure ValidationConfig where
  directoryUrl : String
  purpose : Option String := none
  cacheTimeout : Option Int := none

/-- The ambient effects of one `validateWebBotAuth` call:
`process.env.NODE_ENV`, the library verdict for this request/key, the
network outcome for this resolver run, `Date.now()` and
`new Date().toISOString()`. -/
structure Env where
  nodeEnv : String
  lib : LibOutcome
  net : NetResult
  now : Int
  nowIso : String := ""

/-- `validateWebBotAuth` of `signature.ts`: the five sequential steps,
short-circuiting on first failure.  Returns the result, the cache after the
call, and the number of network fetches issued. -/
def validateWebBotAuth (env : Env) (cache : Cache) (request : Request)
    (config : ValidationConfig) : ValidationResult × Cache × Nat :=
  match extractSignatureComponents request with
  | none =>
    ({ isValid := false
       error := some "No HTTP Message Signature headers found"
       details := { signatureFound := false, directoryFetched := false,
                    keyMatched := false, signatureValid := false } }, cache, 0)
  | some comps =>
    let fr := fetchSignaturesDirectory env.net cache config.directoryUrl
      (config.cacheTimeout.getD 3600000) env.now
    let dirRes := fr.1
    let cache1 := fr.2.1
    let fetches := fr.2.2
    let failDir : ValidationResult :=
      { isValid := false
        error := some ("Failed to fetch signatures directory: " ++ optStrDisplay dirRes.error)
        details := { signatureFound := true, directoryFetched := false,
                     keyMatched := false, signatureValid := false } }
    match dirRes.success, dirRes.directory with
    | false, _ => (failDir, cache1, fetches)
    | true, none => (failDir, cache1, fetches)
    | true, some d =>
      if jsFalsy d then (failDir, cache1, fetches)
      else
        match findKeyById d (comps.keyId.getD "") with
        | none =>
          ({ isValid := false
             error := some ("No matching key found for kid: " ++ optStrDisplay comps.keyId)
             details := { signatureFound := true, directoryFetched := true,
                          keyMatched := false, signatureValid := false } }, cache1, fetches)
        | some key =>
          if !(verifySignatureWithWebBotAuth env.nodeEnv env.lib request key d) then
            ({ isValid := false
               error := some "Signature verification failed"
               details := { signatureFound := true, directoryFetched := true,
                            keyMatched := true, signatureValid := false } }, cache1, fetches)
          else
            let success : ValidationResult :=
              { isValid := true
                details := { signatureFound := true, directoryFetched := true,
                             keyMatched := true, signatureValid := true }
                metadata := some { kid := comps.keyId, purpose := getField d "purpose",
                                   timestamp := env.nowIso } }
            match config.purpose with
            | some p =>
              if p != "" && !(isStr? (getField d "purpose") p) then
                ({ isValid := false
                   error := some ("Purpose mismatch: expected \"" ++ p ++ "\", got \""
                     ++ (match getField d "purpose" with
                         | none => "undefined"
                         | some v => jsDisplay v) ++ "\"")
                   details := { signatureFound := true, directoryFetched := true,
                                keyMatched := true, signatureValid := true } }, cache1, fetches)
              else (success, cache1, fetches)
            | none => (success, cache1, fetches)

/-- The error taxonomy of §7 of the spec, recovered from the distinct
message shape each return site of `validateWebBotAuth` produces. -/
inductive ErrKind where
  | MissingSignature
  | DirectoryUnavailable
  | UnknownKey
  | SignatureInvalid
  | PurposeMismatch
deriving Repr, DecidableEq

/-- Boolean string-prefix test via character lists. -/
def strStartsWith (s pre : String) : Bool := pre.toList.isPrefixOf s.toList

/-- Classify a validation result's error message into the taxonomy.  Each
return site of `validateWebBotAuth` uses a distinct fixed message prefix, so
this classification is exact. -/
def errKind (r : ValidationResult) : Option ErrKind :=
  match r.error with
  | none => none
  | some e =>
    if e == "No HTTP Message Signature headers found" then some .MissingSignature
    else if strStartsWith e "Failed to fetch signatures directory: " then some .DirectoryUnavailable
    else if strStartsWith e "No matching key found for kid: " then some .UnknownKey
    else if e == "Signature verification failed" then some .SignatureInvalid
    else if strStartsWith e "Purpose mismatch: " then some .PurposeMismatch
    else none


/-! ### Generic lemmas about the embedded functions -/

/-- Cache hit: a fresh cached entry is returned as-is, with no fetch. -/
theorem fetch_hit (net : NetResult) (cache : Cache) (url : String) (w now : Int)
    (d : JsonVal) (ts : Int)
    (h1 : cacheGet cache url = some (d, ts)) (h2 : now - ts < w) :
    fetchSignaturesDirectory net cache url w now =
      ({ success := true, directory := some d, url := url, timestamp := ts }, cache, 0) := by
  unfold fetchSignaturesDirectory
  rw [h1]
  simp [h2]

/-- Cache entry stale: the resolver proceeds to a fresh fetch. -/
theorem fetch_stale (net : NetResult) (cache : Cache) (url : String) (w now : Int)
    (d : JsonVal) (ts : Int)
    (h1 : cacheGet cache url = some (d, ts)) (h2 : ¬ (now - ts < w)) :
    fetchSignaturesDirectory net cache url w now =
      fetchSignaturesDirectory.fetchFresh net cache url now := by
  unfold fetchSignaturesDirectory
  rw [h1]
  simp [h2]

/-- No cache entry: the resolver proceeds to a fresh fetch. -/
theorem fetch_nocache (net : NetResult) (cache : Cache) (url : String) (w now : Int)
    (h1 : cacheGet cache url = none) :
    fetchSignaturesDirectory net cache url w now =
      fetchSignaturesDirectory.fetchFresh net cache url now := by
  unfold fetchSignaturesDirectory
  rw [h1]

/-- A fresh fetch issues exactly one network request. -/
theorem fetchFresh_fetches (net : NetResult) (cache : Cache) (url : String) (now : Int) :
    (fetchSignaturesDirectory.fetchFresh net cache url now).2.2 = 1 := by
  unfold fetchSignaturesDirectory.fetchFresh
  cases net with
  | netThrow msg => rfl
  | response ok status statusText body =>
    cases ok with
    | false => rfl
    | true =>
      cases body with
      | error msg => rfl
      | ok data =>
        by_cases hv : (validateDirectoryStructure data).isValid = true <;> simp [hv]

/-- Exhaustive outcome analysis of a fresh fetch: either a structured failure
that leaves the cache untouched, or a success that stores a directory which
passed structure validation. -/
theorem fetchFresh_cases (net : NetResult) (cache : Cache) (url : String) (now : Int) :
    ((fetchSignaturesDirectory.fetchFresh net cache url now).2.1 = cache ∧
     (fetchSignaturesDirectory.fetchFresh net cache url now).1.success = false ∧
     (fetchSignaturesDirectory.fetchFresh net cache url now).1.directory = none ∧
     (fetchSignaturesDirectory.fetchFresh net cache url now).1.error.isSome = true) ∨
    (∃ d, (fetchSignaturesDirectory.fetchFresh net cache url now).1.success = true ∧
     (fetchSignaturesDirectory.fetchFresh net cache url now).1.directory = some d ∧
     (validateDirectoryStructure d).isValid = true ∧
     (fetchSignaturesDirectory.fetchFresh net cache url now).1.error = none ∧
     (fetchSignaturesDirectory.fetchFresh net cache url now).2.1 = cacheSet cache url d now) := by
  unfold fetchSignaturesDirectory.fetchFresh
  cases net with
  | netThrow msg => left; simp
  | response ok status statusText body =>
    cases ok with
    | false => left; simp
    | true =>
      cases body with
      | error msg => left; simp
      | ok data =>
        by_cases hv : (validateDirectoryStructure data).isValid = true
        · right; exact ⟨data, by simp [hv]⟩
        · left; simp [hv]

/-- Every entry of `cacheSet cache url d ts` is an old entry or the new one. -/
theorem cacheSet_mem (cache : Cache) (url : String) (d : JsonVal) (ts : Int) :
    ∀ e ∈ cacheSet cache url d ts, e ∈ cache ∨ e = (url, d, ts) := by
  induction cache with
  | nil =>
    intro e he
    simp only [cacheSet, List.mem_singleton] at he
    exact Or.inr he
  | cons hd tl ih =>
    intro e he
    obtain ⟨u0, d0, ts0⟩ := hd
    simp only [cacheSet] at he
    by_cases hu : (u0 == url) = true
    · rw [if_pos hu] at he
      rcases List.mem_cons.mp he with h | h
      · exact Or.inr h
      · exact Or.inl (List.mem_cons_of_mem _ h)
    · rw [if_neg hu] at he
      rcases List.mem_cons.mp he with h | h
      · exact Or.inl (h ▸ List.mem_cons_self _ _)
      · rcases ih e h with h2 | h2
        · exact Or.inl (List.mem_cons_of_mem _ h2)
        · exact Or.inr h2

/-- If the key loop succeeds, every key in the list passed `validateJWK`. -/
theorem validateKeysFrom_allValid (ks : List JsonVal) :
    ∀ i, (validateKeysFrom i ks).isValid = true →
      ∀ k ∈ ks, (validateJWK k).isValid = true := by
  induction ks with
  | nil => intro i _ k hk; cases hk
  | cons hd tl ih =>
    intro i hv k hk
    simp only [validateKeysFrom] at hv
    by_cases hh : (validateJWK hd).isValid = true
    · rw [if_pos hh] at hv
      rcases List.mem_cons.mp hk with h | h
      · exact h ▸ hh
      · exact ih (i + 1) hv k h
    · rw [if_neg hh] at hv
      simp at hv


/-- If every key before position `i` is valid and the key at `i` is invalid
with message `e`, the loop started at `start` stops at `i` and reports index
`start + i` with `e`. -/
theorem validateKeysFrom_firstBad (e : String) :
    ∀ (ks : List JsonVal) (start i : Nat) (hi : i < ks.length),
      (∀ j (hj : j < i), (validateJWK (ks.get ⟨j, hj.trans hi⟩)).isValid = true) →
      (validateJWK (ks.get ⟨i, hi⟩)).isValid = false →
      (validateJWK (ks.get ⟨i, hi⟩)).error = some e →
      validateKeysFrom start ks =
        { isValid := false,
          error := some ("Invalid key at index " ++ toString (start + i) ++ ": " ++ e) } := by
  intro ks
  induction ks with
  | nil => intro start i hi; exact absurd hi (Nat.not_lt_zero i)
  | cons hd tl ih =>
    intro start i hi hgood hbad hmsg
    cases i with
    | zero =>
      simp only [List.get] at hbad hmsg
      simp only [validateKeysFrom, hbad, Bool.false_eq_true, if_false, hmsg,
        optStrDisplay, Nat.add_zero]
    | succ i0 =>
      have hh : (validateJWK hd).isValid = true := by
        have := hgood 0 (Nat.succ_pos i0)
        simpa using this
      have hi0 : i0 < tl.length := Nat.lt_of_succ_lt_succ hi
      have hrec := ih (start + 1) i0 hi0
        (fun j hj => by
          have := hgood (j + 1) (Nat.succ_lt_succ hj)
          simpa using this)
        (by simpa using hbad) (by simpa using hmsg)
      simp only [validateKeysFrom, hh, if_true]
      rw [hrec]
      have harith : start + 1 + i0 = start + (i0 + 1) := by omega
      rw [harith]

/-- A directory that passes structure validation has a non-empty keys array
all of whose keys pass `validateJWK`. -/
theorem validateDirectoryStructure_valid_elim (d : JsonVal)
    (h : (validateDirectoryStructure d).isValid = true) :
    dirKeys d ≠ [] ∧ ∀ k ∈ dirKeys d, (validateJWK k).isValid = true := by
  unfold validateDirectoryStructure at h
  by_cases h1 : (jsFalsy d || jsTypeof d != "object") = true
  · rw [if_pos h1] at h; simp at h
  · rw [if_neg h1] at h
    unfold dirKeys
    cases hf : getField d "keys" with
    | none => rw [hf] at h; simp at h
    | some v =>
      cases v with
      | arr ks =>
        rw [hf] at h
        simp only at h
        by_cases h2 : (ks.length == 0) = true
        · rw [if_pos h2] at h; simp at h
        · rw [if_neg h2] at h
          constructor
          · show ks ≠ []
            intro hnil
            rw [hnil] at h2
            simp at h2
          · show ∀ k ∈ ks, (validateJWK k).isValid = true
            exact validateKeysFrom_allValid ks 0 h
      | null => rw [hf] at h; simp at h
      | bool b => rw [hf] at h; simp at h
      | num n => rw [hf] at h; simp at h
      | str s => rw [hf] at h; simp at h
      | obj fs => rw [hf] at h; simp at h

/-- A prefix of `a` is a prefix of `a ++ b`. -/
theorem strStartsWith_append_left (a b pre : String)
    (h : strStartsWith a pre = true) : strStartsWith (a ++ b) pre = true := by
  unfold strStartsWith at h ⊢
  rw [List.isPrefixOf_iff_prefix] at h ⊢
  have hab : (a ++ b).toList = a.toList ++ b.toList := by
    simp [String.toList, String.data_append]
  rw [hab]
  exact h.trans (List.prefix_append _ _)

/-- A failure result whose message starts with `Purpose mismatch: ` is
classified as `PurposeMismatch` (no other return site of the verifier
produces a message with this prefix). -/
theorem errKind_of_purpose (r : ValidationResult) (e : String)
    (hr : r.error = some e)
    (h : strStartsWith e "Purpose mismatch: " = true) :
    errKind r = some ErrKind.PurposeMismatch := by
  have hpfx : "Purpose mismatch: ".toList <+: e.toList := by
    have := h; unfold strStartsWith at this; rwa [List.isPrefixOf_iff_prefix] at this
  have h1 : (e == "No HTTP Message Signature headers found") = false := by
    cases hb : (e == "No HTTP Message Signature headers found") with
    | false => rfl
    | true =>
      exfalso
      have he : e = "No HTTP Message Signature headers found" := eq_of_beq hb
      rw [he] at h
      exact absurd h (by decide)
  have h2 : strStartsWith e "Failed to fetch signatures directory: " = false := by
    cases hb : strStartsWith e "Failed to fetch signatures directory: " with
    | false => rfl
    | true =>
      exfalso
      unfold strStartsWith at hb
      rw [List.isPrefixOf_iff_prefix] at hb
      rcases List.prefix_or_prefix_of_prefix hpfx hb with hc | hc
      · exact absurd hc (by decide)
      · exact absurd hc (by decide)
  have h3 : strStartsWith e "No matching key found for kid: " = false := by
    cases hb : strStartsWith e "No matching key found for kid: " with
    | false => rfl
    | true =>
      exfalso
      unfold strStartsWith at hb
      rw [List.isPrefixOf_iff_prefix] at hb
      rcases List.prefix_or_prefix_of_prefix hpfx hb with hc | hc
      · exact absurd hc (by decide)
      · exact absurd hc (by decide)
  have h4 : (e == "Signature verification failed") = false := by
    cases hb : (e == "Signature verification failed") with
    | false => rfl
    | true =>
      exfalso
      have he : e = "Signature verification failed" := eq_of_beq hb
      rw [he] at h
      exact absurd h (by decide)
  unfold errKind
  rw [hr]
  simp only [h1, h2, h3, h4, h, Bool.false_eq_true, if_false, if_true]

theorem validate_missing (env : Env) (cache : Cache) (request : Request) (config : ValidationConfig)
    (h : extractSignatureComponents request = none) :
    validateWebBotAuth env cache request config =
      ({ isValid := false, error := some "No HTTP Message Signature headers found",
         details := ⟨false, false, false, false⟩ }, cache, 0) := by
  unfold validateWebBotAuth
  rw [h]

theorem validate_dirFail (env : Env) (cache : Cache) (request : Request) (config : ValidationConfig)
    (comps : SignatureComponents)
    (h1 : extractSignatureComponents request = some comps)
    (h2 : (fetchSignaturesDirectory env.net cache config.directoryUrl
      (config.cacheTimeout.getD 3600000) env.now).1.success = false) :
    validateWebBotAuth env cache request config =
      ({ isValid := false,
         error := some ("Failed to fetch signatures directory: " ++ optStrDisplay
           (fetchSignaturesDirectory env.net cache config.directoryUrl
             (config.cacheTimeout.getD 3600000) env.now).1.error),
         details := ⟨true, false, false, false⟩ },
       (fetchSignaturesDirectory env.net cache config.directoryUrl
         (config.cacheTimeout.getD 3600000) env.now).2.1,
       (fetchSignaturesDirectory env.net cache config.directoryUrl
         (config.cacheTimeout.getD 3600000) env.now).2.2) := by
  unfold validateWebBotAuth
  rw [h1]
  simp only []
  rw [h2]


theorem validate_dirNone (env : Env) (cache : Cache) (request : Request) (config : ValidationConfig)
    (comps : SignatureComponents)
    (h1 : extractSignatureComponents request = some comps)
    (h2 : (fetchSignaturesDirectory env.net cache config.directoryUrl
      (config.cacheTimeout.getD 3600000) env.now).1.success = true)
    (h3 : (fetchSignaturesDirectory env.net cache config.directoryUrl
      (config.cacheTimeout.getD 3600000) env.now).1.directory = none) :
    validateWebBotAuth env cache request config =
      ({ isValid := false,
         error := some ("Failed to fetch signatures directory: " ++ optStrDisplay
           (fetchSignaturesDirectory env.net cache config.directoryUrl
             (config.cacheTimeout.getD 3600000) env.now).1.error),
         details := ⟨true, false, false, false⟩ },
       (fetchSignaturesDirectory env.net cache config.directoryUrl
         (config.cacheTimeout.getD 3600000) env.now).2.1,
       (fetchSignaturesDirectory env.net cache config.directoryUrl
         (config.cacheTimeout.getD 3600000) env.now).2.2) := by
  unfold validateWebBotAuth
  rw [h1]
  simp only []
  rw [h2, h3]

theorem validate_dirFalsy (env : Env) (cache : Cache) (request : Request) (config : ValidationConfig)
    (comps : SignatureComponents) (d : JsonVal)
    (h1 : extractSignatureComponents request = some comps)
    (h2 : (fetchSignaturesDirectory env.net cache config.directoryUrl
      (config.cacheTimeout.getD 3600000) env.now).1.success = true)
    (h3 : (fetchSignaturesDirectory env.net cache config.directoryUrl
      (config.cacheTimeout.getD 3600000) env.now).1.directory = some d)
    (h4 : jsFalsy d = true) :
    validateWebBotAuth env cache request config =
      ({ isValid := false,
         error := some ("Failed to fetch signatures directory: " ++ optStrDisplay
           (fetchSignaturesDirectory env.net cache config.directoryUrl
             (config.cacheTimeout.getD 3600000) env.now).1.error),
         details := ⟨true, false, false, false⟩ },
       (fetchSignaturesDirectory env.net cache config.directoryUrl
         (config.cacheTimeout.getD 3600000) env.now).2.1,
       (fetchSignaturesDirectory env.net cache config.directoryUrl
         (config.cacheTimeout.getD 3600000) env.now).2.2) := by
  unfold validateWebBotAuth
  rw [h1]
  simp only []
  rw [h2, h3]
  simp only [h4, if_true]

theorem validate_keyNone (env : Env) (cache : Cache) (request : Request) (config : ValidationConfig)
    (comps : SignatureComponents) (d : JsonVal)
    (h1 : extractSignatureComponents request = some comps)
    (h2 : (fetchSignaturesDirectory env.net cache config.directoryUrl
      (config.cacheTimeout.getD 3600000) env.now).1.success = true)
    (h3 : (fetchSignaturesDirectory env.net cache config.directoryUrl
      (config.cacheTimeout.getD 3600000) env.now).1.directory = some d)
    (h4 : jsFalsy d = false)
    (h5 : findKeyById d (comps.keyId.getD "") = none) :
    validateWebBotAuth env cache request config =
      ({ isValid := false,
         error := some ("No matching key found for kid: " ++ optStrDisplay comps.keyId),
         details := ⟨true, true, false, false⟩ },
       (fetchSignaturesDirectory env.net cache config.directoryUrl
         (config.cacheTimeout.getD 3600000) env.now).2.1,
       (fetchSignaturesDirectory env.net cache config.directoryUrl
         (config.cacheTimeout.getD 3600000) env.now).2.2) := by
  unfold validateWebBotAuth
  rw [h1]
  simp only []
  rw [h2, h3]
  simp only [h4, Bool.false_eq_true, if_false, h5]

theorem validate_sigFail (env : Env) (cache : Cache) (request : Request) (config : ValidationConfig)
    (comps : SignatureComponents) (d key : JsonVal)
    (h1 : extractSignatureComponents request = some comps)
    (h2 : (fetchSignaturesDirectory env.net cache config.directoryUrl
      (config.cacheTimeout.getD 3600000) env.now).1.success = true)
    (h3 : (fetchSignaturesDirectory env.net cache config.directoryUrl
      (config.cacheTimeout.getD 3600000) env.now).1.directory = some d)
    (h4 : jsFalsy d = false)
    (h5 : findKeyById d (comps.keyId.getD "") = some key)
    (h6 : verifySignatureWithWebBotAuth env.nodeEnv env.lib request key d = false) :
    validateWebBotAuth env cache request config =
      ({ isValid := false,
         error := some "Signature verification failed",
         details := ⟨true, true, true, false⟩ },
       (fetchSignaturesDirectory env.net cache config.directoryUrl
         (config.cacheTimeout.getD 3600000) env.now).2.1,
       (fetchSignaturesDirectory env.net cache config.directoryUrl
         (config.cacheTimeout.getD 3600000) env.now).2.2) := by
  unfold validateWebBotAuth
  rw [h1]
  simp only []
  rw [h2, h3]
  simp only [h4, Bool.false_eq_true, if_false, h5, h6, Bool.not_false, if_true]

theorem validate_afterSig (env : Env) (cache : Cache) (request : Request) (config : ValidationConfig)
    (comps : SignatureComponents) (d key : JsonVal)
    (h1 : extractSignatureComponents request = some comps)
    (h2 : (fetchSignaturesDirectory env.net cache config.directoryUrl
      (config.cacheTimeout.getD 3600000) env.now).1.success = true)
    (h3 : (fetchSignaturesDirectory env.net cache config.directoryUrl
      (config.cacheTimeout.getD 3600000) env.now).1.directory = some d)
    (h4 : jsFalsy d = false)
    (h5 : findKeyById d (comps.keyId.getD "") = some key)
    (h6 : verifySignatureWithWebBotAuth env.nodeEnv env.lib request key d = true) :
    validateWebBotAuth env cache request config =
      ((match config.purpose with
        | some p =>
          if p != "" && !(isStr? (getField d "purpose") p) then
            { isValid := false
              error := some ("Purpose mismatch: expected \"" ++ p ++ "\", got \""
                ++ (match getField d "purpose" with
                    | none => "undefined"
                    | some v => jsDisplay v) ++ "\"")
              details := ⟨true, true, true, true⟩ }
          else
            { isValid := true
              details := ⟨true, true, true, true⟩
              metadata := some { kid := comps.keyId, purpose := getField d "purpose",
                                 timestamp := env.nowIso } }
        | none =>
          { isValid := true
            details := ⟨true, true, true, true⟩
            metadata := some { kid := comps.keyId, purpose := getField d "purpose",
                               timestamp := env.nowIso } }),
       (fetchSignaturesDirectory env.net cache config.directoryUrl
         (config.cacheTimeout.getD 3600000) env.now).2.1,
       (fetchSignaturesDirectory env.net cache config.directoryUrl
         (config.cacheTimeout.getD 3600000) env.now).2.2) := by
  unfold validateWebBotAuth
  rw [h1]
  simp only []
  rw [h2, h3]
  simp only [h4, Bool.false_eq_true, if_false, h5, h6, Bool.not_true]
  cases hp : config.purpose with
  | none => rfl
  | some p => cases hc : (p != "" && !(isStr? (getField d "purpose") p)) <;> simp [hc]


/-- Exhaustive enumeration of the milestone `details` a verifier run can
report: each return site sets a prefix of the four milestones in order. -/
theorem details_cases (env : Env) (cache : Cache) (request : Request) (config : ValidationConfig) :
    (validateWebBotAuth env cache request config).1.details = ⟨false, false, false, false⟩ ∨
    (validateWebBotAuth env cache request config).1.details = ⟨true, false, false, false⟩ ∨
    (validateWebBotAuth env cache request config).1.details = ⟨true, true, false, false⟩ ∨
    (validateWebBotAuth env cache request config).1.details = ⟨true, true, true, false⟩ ∨
    (validateWebBotAuth env cache request config).1.details = ⟨true, true, true, true⟩ := by
  cases hx : extractSignatureComponents request with
  | none =>
    rw [validate_missing env cache request config hx]
    left; rfl
  | some comps =>
    cases hs : (fetchSignaturesDirectory env.net cache config.directoryUrl
        (config.cacheTimeout.getD 3600000) env.now).1.success with
    | false =>
      rw [validate_dirFail env cache request config comps hx hs]
      right; left; rfl
    | true =>
      cases hd : (fetchSignaturesDirectory env.net cache config.directoryUrl
          (config.cacheTimeout.getD 3600000) env.now).1.directory with
      | none =>
        rw [validate_dirNone env cache request config comps hx hs hd]
        right; left; rfl
      | some d =>
        cases hf : jsFalsy d with
        | true =>
          rw [validate_dirFalsy env cache request config comps d hx hs hd hf]
          right; left; rfl
        | false =>
          cases hk : findKeyById d (comps.keyId.getD "") with
          | none =>
            rw [validate_keyNone env cache request config comps d hx hs hd hf hk]
            right; right; left; rfl
          | some key =>
            cases hv : verifySignatureWithWebBotAuth env.nodeEnv env.lib request key d with
            | false =>
              rw [validate_sigFail env cache request config comps d key hx hs hd hf hk hv]
              right; right; right; left; rfl
            | true =>
              rw [validate_afterSig env cache request config comps d key hx hs hd hf hk hv]
              cases hp : config.purpose with
              | none => right; right; right; right; rfl
              | some p =>
                by_cases hc : (p != "" && !(isStr? (getField d "purpose") p)) = true
                · right; right; right; right
                  simp [hc]
                · right; right; right; right
                  simp [hc]


/-! ### Concrete sample data -/

/-- The well-known directory URL used by the examples and tests. -/
def wellKnownUrl : String := "https://example.com/.well-known/http-message-signatures-directory"

/-- A structurally valid Ed25519 JWK. -/
def sampleKey : JsonVal := .obj [("kty", .str "OKP"), ("crv", .str "Ed25519"),
  ("kid", .str "test-key"), ("x", .str "JrQLj5P89iXES9")]

/-- A structurally valid directory with declared purpose "rag". -/
def sampleDir : JsonVal := .obj [("keys", .arr [sampleKey]), ("purpose", .str "rag")]

/-- A 200 response whose body parses to the sample directory. -/
def goodNet : NetResult := .response true 200 "OK" (.ok sampleDir)

/-- A request carrying both signature headers with keyid "test-key". -/
def sampleReq : Request := { headers := [("signature", "sig-bytes"),
  ("signature-input", "keyid=\"test-key\",alg=\"ed25519\",created=1234567890,tag=\"web-bot-auth\"")] }

/-- The parsed components of the sample request. -/
def sampleComps : SignatureComponents :=
  { signature := "sig-bytes"
    signatureInput := "keyid=\"test-key\",alg=\"ed25519\",created=1234567890,tag=\"web-bot-auth\""
    keyId := some "test-key"
    algorithm := some "ed25519"
    created := some "1234567890"
    tag := some "web-bot-auth" }

/-- A request with neither signature header. -/
def noSigReq : Request := { headers := [("content-type", "application/json")] }

/-- Configuration expecting purpose "rag". -/
def ragConfig : ValidationConfig := { directoryUrl := wellKnownUrl, purpose := some "rag" }

/-- Configuration with no expected purpose. -/
def noPurposeConfig : ValidationConfig := { directoryUrl := wellKnownUrl }

/-- Configuration expecting purpose "training" (mismatching the sample directory). -/
def trainingConfig : ValidationConfig := { directoryUrl := wellKnownUrl, purpose := some "training" }

/-- Production-mode environment with a cooperative library and network. -/
def prodEnv : Env :=
  { nodeEnv := "production"
    lib := .ok
    net := goodNet
    now := 0
    nowIso := "2026-10-11T00:00:00.000Z" }

/-- Same as prodEnv but with NODE_ENV = "test". -/
def testEnv : Env :=
  { nodeEnv := "test"
    lib := .ok
    net := goodNet
    now := 0
    nowIso := "2026-10-11T00:00:00.000Z" }

/-- A structurally valid key whose validity window ended at t = 1000. -/
def expiredKey : JsonVal := .obj [("kty", .str "OKP"), ("crv", .str "Ed25519"),
  ("kid", .str "expired-key"), ("x", .str "Abc123"), ("nbf", .num 0), ("exp", .num 1000)]

/-- A directory whose only key is the expired one. -/
def expiredDir : JsonVal := .obj [("keys", .arr [expiredKey])]

/-- Network returning the expired-key directory. -/
def expiredNet : NetResult := .response true 200 "OK" (.ok expiredDir)

/-- A request signed with the expired key's identifier. -/
def expiredReq : Request := { headers := [("signature", "sig-bytes"),
  ("signature-input", "keyid=\"expired-key\",alg=\"ed25519\"")] }

/-- Verification instant t = 5000, long after the key expired at 1000. -/
def expiredEnv : Env :=
  { nodeEnv := "production"
    lib := .ok
    net := expiredNet
    now := 5000
    nowIso := "iso" }

/-- A key with the wrong key type (RSA instead of OKP). -/
def rsaKey : JsonVal := .obj [("kty", .str "RSA"), ("kid", .str "rsa-key"), ("x", .str "zzz")]

/-- A directory with one valid key followed by the invalid RSA key. -/
def mixedDir : JsonVal := .obj [("keys", .arr [sampleKey, rsaKey])]

/-- A network fetch that rejects. -/
def badNet : NetResult := .netThrow "Network error"

/-- Production environment whose network fetch rejects. -/
def badNetEnv : Env :=
  { nodeEnv := "production"
    lib := .ok
    net := badNet
    now := 0
    nowIso := "iso" }

/-! ### Claims -/

/-- Claim C1 (the code contradicts it): the spec requires a key whose validity
window excludes the verification instant to be ineligible for matching in
step 3, with verification failing as UnknownKey.  The code never consults
nbf/exp: at a directory whose only key expired at t = 1000 and a
verification instant t = 5000, findKeyById still returns the expired key,
and the full verifier run succeeds instead of failing with UnknownKey. -/
theorem expired_key_still_matched_in_step3 :
    getField expiredKey "exp" = some (.num 1000) ∧
    expiredEnv.now = 5000 ∧
    findKeyById expiredDir "expired-key" = some expiredKey ∧
    (validateWebBotAuth expiredEnv [] expiredReq noPurposeConfig).1.isValid = true ∧
    errKind (validateWebBotAuth expiredEnv [] expiredReq noPurposeConfig).1 ≠
      some ErrKind.UnknownKey :=
  ⟨rfl, rfl, rfl, rfl, by decide⟩

/-- Claim C3 (the code contradicts it): step-4 cryptographic verification is
claimed to be pure and independent of ambient environment state; in the code
it is gated on process.env.NODE_ENV — with identical request, key, directory
and library verdict, NODE_ENV = "test" forces failure while
NODE_ENV = "production" verifies. -/
theorem verification_depends_on_env_flag :
    verifySignatureWithWebBotAuth "test" .ok sampleReq sampleKey sampleDir = false ∧
    verifySignatureWithWebBotAuth "production" .ok sampleReq sampleKey sampleDir = true ∧
    (validateWebBotAuth testEnv [] sampleReq ragConfig).1.isValid = false ∧
    errKind (validateWebBotAuth testEnv [] sampleReq ragConfig).1 =
      some ErrKind.SignatureInvalid ∧
    (validateWebBotAuth prodEnv [] sampleReq ragConfig).1.isValid = true :=
  ⟨rfl, rfl, rfl, rfl, rfl⟩

/-- Claim C6: a request lacking the signature header or the signature-input
header (or both) fails with MissingSignature, reports
details.signatureFound = false, and attempts no directory resolution (zero
fetches, cache untouched). -/
theorem missing_header_fails_without_resolution (env : Env) (cache : Cache)
    (request : Request) (config : ValidationConfig)
    (h : headerGet request "signature" = none ∨ headerGet request "signature-input" = none) :
    (validateWebBotAuth env cache request config).1.isValid = false ∧
    errKind (validateWebBotAuth env cache request config).1 = some ErrKind.MissingSignature ∧
    (validateWebBotAuth env cache request config).1.details.signatureFound = false ∧
    (validateWebBotAuth env cache request config).2.1 = cache ∧
    (validateWebBotAuth env cache request config).2.2 = 0 := by
  have hx : extractSignatureComponents request = none := by
    unfold extractSignatureComponents
    rcases h with h | h
    · simp [h]
    · cases hs : headerGet request "signature" with
      | none => simp [hs]
      | some sg => simp [hs, h]
  rw [validate_missing env cache request config hx]
  exact ⟨rfl, rfl, rfl, rfl, rfl⟩

/-- Witness for C6 at a concrete request carrying only a content-type header. -/
theorem missing_header_fails_without_resolution_witness :
    (validateWebBotAuth prodEnv [] noSigReq ragConfig).1.isValid = false ∧
    errKind (validateWebBotAuth prodEnv [] noSigReq ragConfig).1 = some ErrKind.MissingSignature ∧
    (validateWebBotAuth prodEnv [] noSigReq ragConfig).1.details.signatureFound = false ∧
    (validateWebBotAuth prodEnv [] noSigReq ragConfig).2.1 = [] ∧
    (validateWebBotAuth prodEnv [] noSigReq ragConfig).2.2 = 0 :=
  missing_header_fails_without_resolution prodEnv [] noSigReq ragConfig (Or.inl rfl)

/-- Claim C9: the milestone details of every returned ValidationResult are
monotone: signatureValid implies keyMatched implies directoryFetched implies
signatureFound, on every path. -/
theorem validate_details_monotone (env : Env) (cache : Cache) (request : Request)
    (config : ValidationConfig) :
    ((validateWebBotAuth env cache request config).1.details.signatureValid = true →
      (validateWebBotAuth env cache request config).1.details.keyMatched = true) ∧
    ((validateWebBotAuth env cache request config).1.details.keyMatched = true →
      (validateWebBotAuth env cache request config).1.details.directoryFetched = true) ∧
    ((validateWebBotAuth env cache request config).1.details.directoryFetched = true →
      (validateWebBotAuth env cache request config).1.details.signatureFound = true) := by
  rcases details_cases env cache request config with h | h | h | h | h <;>
    rw [h] <;> exact ⟨fun hx => by simp_all, fun hx => by simp_all, fun hx => by simp_all⟩

/-- Witness for C9: on a fully successful concrete run, signatureValid holds,
so keyMatched follows by the monotonicity theorem. -/
theorem validate_details_monotone_witness :
    (validateWebBotAuth prodEnv [] sampleReq ragConfig).1.details.keyMatched = true :=
  (validate_details_monotone prodEnv [] sampleReq ragConfig).1 rfl


/-- Claim C4: the resolver never throws across its boundary — every outcome
of a resolve (including a rejecting fetch and a throwing JSON parse) is a
structured DirectoryResult, success with a directory or failure with an
error message; and the verifier composes a resolver failure into its own
result without losing the original message. -/
theorem resolver_failures_are_structured (net : NetResult) (cache cache2 : Cache)
    (url : String) (w now : Int) (env : Env) (request : Request)
    (config : ValidationConfig) :
    (((fetchSignaturesDirectory net cache url w now).1.success = true ∧
      ((fetchSignaturesDirectory net cache url w now).1.directory).isSome = true) ∨
     ((fetchSignaturesDirectory net cache url w now).1.success = false ∧
      ((fetchSignaturesDirectory net cache url w now).1.error).isSome = true)) ∧
    (∀ comps e, extractSignatureComponents request = some comps →
      (fetchSignaturesDirectory env.net cache2 config.directoryUrl
        (config.cacheTimeout.getD 3600000) env.now).1.success = false →
      (fetchSignaturesDirectory env.net cache2 config.directoryUrl
        (config.cacheTimeout.getD 3600000) env.now).1.error = some e →
      (validateWebBotAuth env cache2 request config).1.isValid = false ∧
      (validateWebBotAuth env cache2 request config).1.error =
        some ("Failed to fetch signatures directory: " ++ e)) := by
  constructor
  · cases hc : cacheGet cache url with
    | some pair =>
      obtain ⟨d, ts⟩ := pair
      by_cases hfr : now - ts < w
      · rw [fetch_hit net cache url w now d ts hc hfr]
        left; exact ⟨rfl, rfl⟩
      · rw [fetch_stale net cache url w now d ts hc hfr]
        rcases fetchFresh_cases net cache url now with ⟨_, h1, _, h3⟩ | ⟨d2, h1, h2, _, _, _⟩
        · right; exact ⟨h1, h3⟩
        · left; exact ⟨h1, by rw [h2]; rfl⟩
    | none =>
      rw [fetch_nocache net cache url w now hc]
      rcases fetchFresh_cases net cache url now with ⟨_, h1, _, h3⟩ | ⟨d2, h1, h2, _, _, _⟩
      · right; exact ⟨h1, h3⟩
      · left; exact ⟨h1, by rw [h2]; rfl⟩
  · intro comps e h1 h2 h3
    rw [validate_dirFail env cache2 request config comps h1 h2]
    refine ⟨rfl, ?_⟩
    rw [h3]
    rfl

/-- Witness for C4: a rejecting fetch surfaces in the verifier's result with
the resolver's original message preserved. -/
theorem resolver_failures_are_structured_witness :
    (validateWebBotAuth badNetEnv [] sampleReq ragConfig).1.isValid = false ∧
    (validateWebBotAuth badNetEnv [] sampleReq ragConfig).1.error =
      some ("Failed to fetch signatures directory: " ++ "Error fetching directory: Network error") :=
  (resolver_failures_are_structured badNet [] [] wellKnownUrl 100 0 badNetEnv sampleReq
    ragConfig).2 sampleComps "Error fetching directory: Network error" rfl rfl rfl

/-- Claim C5: a resolve is served from cache (zero fetches) exactly when
now - entryTimestamp < freshnessWindow; a fresh hit returns the cached entry
verbatim; a window of 0 always refetches; a stale entry with a failing
refetch yields a failure with no stale fallback; and the 100ms-window
scenario with resolves at t = 0 and t = 150 issues exactly two fetches. -/
theorem cache_freshness_policy (net : NetResult) (cache : Cache) (url : String)
    (w now : Int) (msg : String) :
    ((fetchSignaturesDirectory net cache url w now).2.2 = 0 ↔
      ∃ d ts, cacheGet cache url = some (d, ts) ∧ now - ts < w) ∧
    (∀ d ts, cacheGet cache url = some (d, ts) → now - ts < w →
      fetchSignaturesDirectory net cache url w now =
        ({ success := true, directory := some d, url := url, timestamp := ts }, cache, 0)) ∧
    (∀ d ts, cacheGet cache url = some (d, ts) → ts ≤ now →
      (fetchSignaturesDirectory net cache url 0 now).2.2 = 1) ∧
    (∀ d ts, cacheGet cache url = some (d, ts) → ¬ (now - ts < w) →
      (fetchSignaturesDirectory (.netThrow msg) cache url w now).1.success = false ∧
      (fetchSignaturesDirectory (.netThrow msg) cache url w now).1.directory = none ∧
      (fetchSignaturesDirectory (.netThrow msg) cache url w now).2.2 = 1) ∧
    ((fetchSignaturesDirectory goodNet [] wellKnownUrl 100 0).2.2 +
     (fetchSignaturesDirectory goodNet
       (fetchSignaturesDirectory goodNet [] wellKnownUrl 100 0).2.1
       wellKnownUrl 100 150).2.2 = 2) := by
  refine ⟨?_, ?_, ?_, ?_, rfl⟩
  · constructor
    · intro h0
      cases hc : cacheGet cache url with
      | none =>
        rw [fetch_nocache net cache url w now hc, fetchFresh_fetches] at h0
        cases h0
      | some pair =>
        obtain ⟨d, ts⟩ := pair
        by_cases hfr : now - ts < w
        · exact ⟨d, ts, rfl, hfr⟩
        · rw [fetch_stale net cache url w now d ts hc hfr, fetchFresh_fetches] at h0
          cases h0
    · rintro ⟨d, ts, hc, hfr⟩
      rw [fetch_hit net cache url w now d ts hc hfr]
  · intro d ts hc hfr
    exact fetch_hit net cache url w now d ts hc hfr
  · intro d ts hc hts
    have hfr : ¬ (now - ts < 0) := by omega
    rw [fetch_stale net cache url 0 now d ts hc hfr, fetchFresh_fetches]
  · intro d ts hc hfr
    rw [fetch_stale (.netThrow msg) cache url w now d ts hc hfr]
    exact ⟨rfl, rfl, rfl⟩

/-- Witness for C5: stale entry plus failing refetch fails closed at a
concrete input. -/
theorem cache_freshness_policy_witness :
    (fetchSignaturesDirectory (.netThrow "boom") [(wellKnownUrl, sampleDir, 0)]
      wellKnownUrl 100 150).1.success = false ∧
    (fetchSignaturesDirectory (.netThrow "boom") [(wellKnownUrl, sampleDir, 0)]
      wellKnownUrl 100 150).1.directory = none ∧
    (fetchSignaturesDirectory (.netThrow "boom") [(wellKnownUrl, sampleDir, 0)]
      wellKnownUrl 100 150).2.2 = 1 :=
  (cache_freshness_policy (.netThrow "boom") [(wellKnownUrl, sampleDir, 0)]
    wellKnownUrl 100 150 "boom").2.2.2.1 sampleDir 0 rfl (by decide)

/-- Claim C10: the cache is modified only by a fetch that succeeded and
passed structure validation; every failure path leaves the cache unchanged,
so every cache entry ever stored holds a directory with a non-empty keys
array all of whose keys satisfy the JWK invariants. -/
theorem cache_holds_only_validated_directories (net : NetResult) (cache : Cache)
    (url : String) (w now : Int) :
    ((fetchSignaturesDirectory net cache url w now).2.1 = cache ∨
      ∃ d, (fetchSignaturesDirectory net cache url w now).1.success = true ∧
        (fetchSignaturesDirectory net cache url w now).1.directory = some d ∧
        (validateDirectoryStructure d).isValid = true ∧
        (fetchSignaturesDirectory net cache url w now).2.1 = cacheSet cache url d now) ∧
    ((∀ e ∈ cache, (validateDirectoryStructure e.2.1).isValid = true) →
      ∀ e ∈ (fetchSignaturesDirectory net cache url w now).2.1,
        (validateDirectoryStructure e.2.1).isValid = true) ∧
    (∀ d, (validateDirectoryStructure d).isValid = true →
      dirKeys d ≠ [] ∧ ∀ k ∈ dirKeys d, (validateJWK k).isValid = true) := by
  have hmain : (fetchSignaturesDirectory net cache url w now).2.1 = cache ∨
      ∃ d, (fetchSignaturesDirectory net cache url w now).1.success = true ∧
        (fetchSignaturesDirectory net cache url w now).1.directory = some d ∧
        (validateDirectoryStructure d).isValid = true ∧
        (fetchSignaturesDirectory net cache url w now).2.1 = cacheSet cache url d now := by
    cases hc : cacheGet cache url with
    | some pair =>
      obtain ⟨d, ts⟩ := pair
      by_cases hfr : now - ts < w
      · rw [fetch_hit net cache url w now d ts hc hfr]
        left; rfl
      · rw [fetch_stale net cache url w now d ts hc hfr]
        rcases fetchFresh_cases net cache url now with ⟨h0, _, _, _⟩ | ⟨d2, h1, h2, h3, _, h5⟩
        · left; exact h0
        · right; exact ⟨d2, h1, h2, h3, h5⟩
    | none =>
      rw [fetch_nocache net cache url w now hc]
      rcases fetchFresh_cases net cache url now with ⟨h0, _, _, _⟩ | ⟨d2, h1, h2, h3, _, h5⟩
      · left; exact h0
      · right; exact ⟨d2, h1, h2, h3, h5⟩
  refine ⟨hmain, ?_, validateDirectoryStructure_valid_elim⟩
  intro hinv e he
  rcases hmain with h0 | ⟨d, _, _, hvalid, hset⟩
  · rw [h0] at he
    exact hinv e he
  · rw [hset] at he
    rcases cacheSet_mem cache url d now e he with hold | hnew
    · exact hinv e hold
    · rw [hnew]
      exact hvalid

/-- Witness for C10: starting from the empty cache (vacuously invariant),
after a successful resolve the stored sample directory passes structure
validation. -/
theorem cache_holds_only_validated_directories_witness :
    (validateDirectoryStructure sampleDir).isValid = true :=
  (cache_holds_only_validated_directories goodNet [] wellKnownUrl 100 0).2.1
    (fun e he => absurd he (List.not_mem_nil e))
    (wellKnownUrl, sampleDir, 0)
    (List.mem_singleton.mpr rfl)


/-- Claim C2: the purpose check runs only after cryptographic success.  When
the signature verifies against the matched key and the configured expected
purpose (a non-empty string; an empty string is falsy and counts as
unspecified in the source) differs from the directory's declared purpose —
including a directory with no purpose field — the run fails with
PurposeMismatch and details.signatureValid = true; when the signature does
not verify, the same configuration yields SignatureInvalid instead, so the
purpose check never runs before cryptographic success. -/
theorem purpose_mismatch_only_after_crypto (env : Env) (cache : Cache)
    (request : Request) (config : ValidationConfig) (comps : SignatureComponents)
    (d key : JsonVal) (p : String)
    (h1 : extractSignatureComponents request = some comps)
    (h2 : (fetchSignaturesDirectory env.net cache config.directoryUrl
      (config.cacheTimeout.getD 3600000) env.now).1.success = true)
    (h3 : (fetchSignaturesDirectory env.net cache config.directoryUrl
      (config.cacheTimeout.getD 3600000) env.now).1.directory = some d)
    (h4 : jsFalsy d = false)
    (h5 : findKeyById d (comps.keyId.getD "") = some key)
    (h7 : config.purpose = some p)
    (hp : p ≠ "")
    (h8 : isStr? (getField d "purpose") p = false) :
    (verifySignatureWithWebBotAuth env.nodeEnv env.lib request key d = true →
      (validateWebBotAuth env cache request config).1.isValid = false ∧
      errKind (validateWebBotAuth env cache request config).1 =
        some ErrKind.PurposeMismatch ∧
      (validateWebBotAuth env cache request config).1.details.signatureValid = true) ∧
    (verifySignatureWithWebBotAuth env.nodeEnv env.lib request key d = false →
      errKind (validateWebBotAuth env cache request config).1 =
        some ErrKind.SignatureInvalid ∧
      (validateWebBotAuth env cache request config).1.details.signatureValid = false) := by
  constructor
  · intro hv
    rw [validate_afterSig env cache request config comps d key h1 h2 h3 h4 h5 hv]
    have hcond : (p != "" && !(isStr? (getField d "purpose") p)) = true := by
      simp [bne_iff_ne, hp, h8]
    rw [h7]
    simp only [hcond, if_true]
    refine ⟨trivial, ?_, trivial⟩
    apply errKind_of_purpose _ _ rfl
    exact strStartsWith_append_left _ _ _ (strStartsWith_append_left _ _ _
      (strStartsWith_append_left _ _ _ (strStartsWith_append_left _ _ _ (by decide))))
  · intro hv
    rw [validate_sigFail env cache request config comps d key h1 h2 h3 h4 h5 hv]
    exact ⟨rfl, rfl⟩

/-- Witness for C2: the sample directory declares purpose "rag" while the
configuration expects "training"; the cryptographically successful run fails
with PurposeMismatch and signatureValid = true. -/
theorem purpose_mismatch_only_after_crypto_witness :
    (validateWebBotAuth prodEnv [] sampleReq trainingConfig).1.isValid = false ∧
    errKind (validateWebBotAuth prodEnv [] sampleReq trainingConfig).1 =
      some ErrKind.PurposeMismatch ∧
    (validateWebBotAuth prodEnv [] sampleReq trainingConfig).1.details.signatureValid = true :=
  (purpose_mismatch_only_after_crypto prodEnv [] sampleReq trainingConfig sampleComps
    sampleDir sampleKey "training" rfl rfl rfl rfl rfl rfl (by decide) rfl).1 rfl

/-- Claim C7: a fetched directory body containing a key that violates the
JWK invariants fails structure validation with a message reporting the index
of the first offending key and the violated constraint, and the resolve of
such a body fails (success = false, no directory returned, cache untouched),
so the offending key is rejected at parse time and never reaches use. -/
theorem invalid_key_rejected_at_parse (data : JsonVal) (keys : List JsonVal)
    (i : Nat) (hi : i < keys.length) (e : String)
    (h1 : jsFalsy data = false) (h2 : jsTypeof data = "object")
    (hk : getField data "keys" = some (.arr keys))
    (hgood : ∀ j (hj : j < i), (validateJWK (keys.get ⟨j, hj.trans hi⟩)).isValid = true)
    (hbadv : (validateJWK (keys.get ⟨i, hi⟩)).isValid = false)
    (hbadm : (validateJWK (keys.get ⟨i, hi⟩)).error = some e) :
    validateDirectoryStructure data =
      { isValid := false,
        error := some ("Invalid key at index " ++ toString i ++ ": " ++ e) } ∧
    (∀ (cache : Cache) (w now : Int) (status : Nat) (statusText : String),
      cacheGet cache wellKnownUrl = none →
      (fetchSignaturesDirectory (.response true status statusText (.ok data))
        cache wellKnownUrl w now).1.success = false ∧
      (fetchSignaturesDirectory (.response true status statusText (.ok data))
        cache wellKnownUrl w now).1.directory = none ∧
      (fetchSignaturesDirectory (.response true status statusText (.ok data))
        cache wellKnownUrl w now).1.error =
        some ("Invalid directory structure: " ++
          ("Invalid key at index " ++ toString i ++ ": " ++ e)) ∧
      (fetchSignaturesDirectory (.response true status statusText (.ok data))
        cache wellKnownUrl w now).2.1 = cache) := by
  have hmain : validateDirectoryStructure data =
      { isValid := false,
        error := some ("Invalid key at index " ++ toString i ++ ": " ++ e) } := by
    unfold validateDirectoryStructure
    rw [h1, h2]
    simp only [bne_self_eq_false, Bool.or_false, Bool.false_eq_true, if_false]
    rw [hk]
    have hne : (keys.length == 0) = false := by
      simp only [beq_eq_false_iff_ne, ne_eq]
      omega
    simp only [hne, Bool.false_eq_true, if_false]
    have := validateKeysFrom_firstBad e keys 0 i hi hgood hbadv hbadm
    rw [this, Nat.zero_add]
  refine ⟨hmain, ?_⟩
  intro cache w now status statusText hcg
  rw [fetch_nocache _ cache wellKnownUrl w now hcg]
  unfold fetchSignaturesDirectory.fetchFresh
  simp only [Bool.not_true, Bool.false_eq_true, if_false, hmain]
  simp [optStrDisplay]

/-- Witness for C7: a directory whose second key has kty "RSA" is rejected
with the index-1 key-type message, and its resolve fails. -/
theorem invalid_key_rejected_at_parse_witness :
    validateDirectoryStructure mixedDir =
      { isValid := false,
        error := some "Invalid key at index 1: Key type must be \"OKP\" for Ed25519" } ∧
    (fetchSignaturesDirectory (.response true 200 "OK" (.ok mixedDir)) [] wellKnownUrl
      100 0).1.success = false ∧
    (fetchSignaturesDirectory (.response true 200 "OK" (.ok mixedDir)) [] wellKnownUrl
      100 0).2.1 = [] := by
  have h := invalid_key_rejected_at_parse mixedDir [sampleKey, rsaKey] 1 (by decide)
    "Key type must be \"OKP\" for Ed25519" rfl rfl rfl
    (fun j hj => by
      have hj0 : j = 0 := by omega
      subst hj0
      rfl)
    rfl rfl
  obtain ⟨hm, hf⟩ := h
  have hrun := hf [] 100 0 200 "OK" rfl
  exact ⟨hm, hrun.1, hrun.2.2.2⟩

/-- Claim C8: on every successful verification, the result metadata's key
identifier equals the keyid parsed from the signature-input header, and its
purpose equals the resolved directory's declared purpose. -/
theorem success_metadata_echoes_keyid_and_purpose (env : Env) (cache : Cache)
    (request : Request) (config : ValidationConfig)
    (h : (validateWebBotAuth env cache request config).1.isValid = true) :
    ((validateWebBotAuth env cache request config).1.metadata).map VMetadata.kid =
      (extractSignatureComponents request).map SignatureComponents.keyId ∧
    ((validateWebBotAuth env cache request config).1.metadata).map VMetadata.purpose =
      ((fetchSignaturesDirectory env.net cache config.directoryUrl
        (config.cacheTimeout.getD 3600000) env.now).1.directory).map
        (fun d => getField d "purpose") := by
  cases hx : extractSignatureComponents request with
  | none =>
    rw [validate_missing env cache request config hx] at h
    simp at h
  | some comps =>
    cases hs : (fetchSignaturesDirectory env.net cache config.directoryUrl
        (config.cacheTimeout.getD 3600000) env.now).1.success with
    | false =>
      rw [validate_dirFail env cache request config comps hx hs] at h
      simp at h
    | true =>
      cases hd : (fetchSignaturesDirectory env.net cache config.directoryUrl
          (config.cacheTimeout.getD 3600000) env.now).1.directory with
      | none =>
        rw [validate_dirNone env cache request config comps hx hs hd] at h
        simp at h
      | some d =>
        cases hf : jsFalsy d with
        | true =>
          rw [validate_dirFalsy env cache request config comps d hx hs hd hf] at h
          simp at h
        | false =>
          cases hkk : findKeyById d (comps.keyId.getD "") with
          | none =>
            rw [validate_keyNone env cache request config comps d hx hs hd hf hkk] at h
            simp at h
          | some key =>
            cases hv : verifySignatureWithWebBotAuth env.nodeEnv env.lib request key d with
            | false =>
              rw [validate_sigFail env cache request config comps d key hx hs hd hf hkk hv] at h
              simp at h
            | true =>
              rw [validate_afterSig env cache request config comps d key hx hs hd hf hkk hv] at h ⊢
              cases hpo : config.purpose with
              | none => exact ⟨rfl, rfl⟩
              | some p =>
                rw [hpo] at h
                by_cases hc : (p != "" && !(isStr? (getField d "purpose") p)) = true
                · simp [hc] at h
                · simp only [Bool.not_eq_true] at hc
                  simp only [hc, Bool.false_eq_true, if_false]
                  exact ⟨rfl, rfl⟩

/-- Witness for C8: the fully successful concrete run echoes keyid
"test-key" and purpose "rag". -/
theorem success_metadata_echoes_keyid_and_purpose_witness :
    ((validateWebBotAuth prodEnv [] sampleReq ragConfig).1.metadata).map VMetadata.kid =
      (extractSignatureComponents sampleReq).map SignatureComponents.keyId ∧
    ((validateWebBotAuth prodEnv [] sampleReq ragConfig).1.metadata).map VMetadata.purpose =
      ((fetchSignaturesDirectory prodEnv.net [] ragConfig.directoryUrl
        (ragConfig.cacheTimeout.getD 3600000) prodEnv.now).1.directory).map
        (fun d => getField d "purpose") :=
  success_metadata_echoes_keyid_and_purpose prodEnv [] sampleReq ragConfig rfl
